import Mathlib

/-!
Shallow embedding of the Neptune query shell's connection manager
(`src/neptune/connection.py`) and proofs about it.

The JSON values flowing through the transformers are modelled by the
inductive `Json` below; Python dictionaries parsed from JSON have unique
keys, so association lists with first-match lookup model them faithfully.
Python strings are modelled by Lean `String`; `str.upper()` / `str.lower()`
are modelled character-wise (the queries involved are ASCII).
-/

/-- JSON values, as produced by `response.json()`. -/
inductive Json where
  | null : Json
  | bool (b : Bool) : Json
  | num (n : Int) : Json
  | str (s : String) : Json
  | arr (xs : List Json) : Json
  | obj (fields : List (String × Json)) : Json

/-- First-match lookup in a JSON object's field list (Python `dict` access;
parsed JSON objects have unique keys). -/
def dictGet (fs : List (String × Json)) (k : String) : Option Json :=
  (fs.find? (fun p => p.1 == k)).map (fun p => p.2)

/-- `j[k]` when `j` is an object, `none` otherwise. -/
def Json.getField (j : Json) (k : String) : Option Json :=
  match j with
  | .obj fs => dictGet fs k
  | _ => none

/-- Python's `pat in s` on strings: substring containment. -/
def containsSubstr (s pat : String) : Bool :=
  decide (pat.data <:+: s.data)

/-- Python's `s.upper()` (character-wise, ASCII-adequate). -/
def strUpper (s : String) : String :=
  ⟨s.data.map Char.toUpper⟩

/-- Python's `s.lower()` (character-wise, ASCII-adequate). -/
def strLower (s : String) : String :=
  ⟨s.data.map Char.toLower⟩

/-- Exception-propagating map over a list, mirroring a Python `for` loop
whose body may raise: the first raise aborts the whole loop. -/
def mapMExcept (f : α → Except ε β) : List α → Except ε (List β)
  | [] => .ok []
  | a :: as =>
    match f a with
    | .error e => .error e
    | .ok b =>
      match mapMExcept f as with
      | .error e => .error e
      | .ok bs => .ok (b :: bs)

/-! ## Content type and timeout selection (`execute_sparql`, lines 136-173) -/

/-- The update keywords scanned for in `execute_sparql`. -/
def updateKeywords : List String :=
  ["INSERT", "DELETE", "CLEAR", "CREATE", "DROP", "LOAD"]

/-- Content-type selection of `execute_sparql` (lines 136-143): scan the
formatted query, upper-cased, for any update keyword. -/
def selectContentType (body : String) : String :=
  if updateKeywords.any (fun kw => containsSubstr (strUpper body) kw) then
    "application/sparql-update"
  else
    "application/sparql-query"

/-- Base timeout of `execute_sparql` (lines 168-170): 300 seconds when the
formatted query contains DELETE or CLEAR, 120 otherwise. -/
def baseTimeout (body : String) : Nat :=
  if (["DELETE", "CLEAR"] : List String).any
      (fun kw => containsSubstr (strUpper body) kw) then 300
  else 120

/-- Per-attempt timeout (line 172): `base_timeout * (retry_count + 1)`. -/
def timeoutSeconds (body : String) (retryCount : Nat) : Nat :=
  baseTimeout body * (retryCount + 1)

/-! ## Spec-side predicates (written from the specification's words, to be
compared with the code-side definitions above) -/

/-- Spec-side: `body` contains `token` case-insensitively, i.e. some
contiguous substring of `body` equals `token` up to letter case. -/
def specContainsToken (body token : String) : Prop :=
  ∃ w : List Char, w <:+: body.data ∧ w.map Char.toUpper = token.data.map Char.toUpper

/-- Spec-side: the body is classified as an update payload, i.e. it contains
one of the mutating-operation tokens case-insensitively. -/
def specIsUpdate (body : String) : Prop :=
  ∃ t ∈ (["insert", "delete", "clear", "create", "drop", "load"] : List String),
    specContainsToken body t

/-- An infix of a mapped list comes from mapping an infix. -/
theorem infix_map_iff (f : Char → Char) (pat l : List Char) :
    pat <:+: l.map f ↔ ∃ w, w <:+: l ∧ w.map f = pat := by
  constructor
  · rintro ⟨u, v, huv⟩
    rw [List.append_assoc] at huv
    obtain ⟨l₁, l₂, rfl, hl₁, hl₂⟩ := List.append_eq_map_iff.mp huv
    obtain ⟨l₃, l₄, rfl, hl₃, hl₄⟩ := List.map_eq_append_iff.mp hl₂
    exact ⟨l₃, ⟨l₁, l₄, by simp⟩, hl₃⟩
  · rintro ⟨w, ⟨u, v, huv⟩, hw⟩
    exact ⟨u.map f, v.map f, by rw [← hw, ← List.map_append, ← List.map_append, huv]⟩

/-- The code's upper-case substring scan coincides with case-insensitive
containment of the scanned pattern. -/
theorem containsSubstr_upper_iff (body pat : String) :
    containsSubstr (strUpper body) pat = true ↔
      ∃ w : List Char, w <:+: body.data ∧ w.map Char.toUpper = pat.data := by
  unfold containsSubstr strUpper
  rw [decide_eq_true_iff]
  exact infix_map_iff Char.toUpper pat.data body.data

/-- The scan for an upper-case keyword `kw` detects exactly the
case-insensitive occurrences of the corresponding token. -/
theorem containsSubstr_iff_specContainsToken (body kw token : String)
    (h : token.data.map Char.toUpper = kw.data) :
    containsSubstr (strUpper body) kw = true ↔ specContainsToken body token := by
  rw [containsSubstr_upper_iff]
  unfold specContainsToken
  simp only [h]

/-- C3: for every RDF-protocol (SPARQL) request body, the request is sent
with Content-Type application/sparql-update if the body contains any of the
tokens insert/delete/clear/create/drop/load case-insensitively (as a
substring anywhere in the body), and with application/sparql-query
otherwise. -/
theorem sparql_content_type_selection (body : String) :
    (selectContentType body = "application/sparql-update" ↔ specIsUpdate body)
    ∧ (selectContentType body = "application/sparql-query" ↔ ¬ specIsUpdate body) := by
  have hiff : (updateKeywords.any fun kw => containsSubstr (strUpper body) kw) = true
      ↔ specIsUpdate body := by
    rw [List.any_eq_true]
    constructor
    · rintro ⟨kw, hkw, hc⟩
      simp only [updateKeywords, List.mem_cons, List.not_mem_nil, or_false] at hkw
      rcases hkw with rfl | rfl | rfl | rfl | rfl | rfl
      · exact ⟨"insert", by simp,
          (containsSubstr_iff_specContainsToken body _ "insert" (by decide)).mp hc⟩
      · exact ⟨"delete", by simp,
          (containsSubstr_iff_specContainsToken body _ "delete" (by decide)).mp hc⟩
      · exact ⟨"clear", by simp,
          (containsSubstr_iff_specContainsToken body _ "clear" (by decide)).mp hc⟩
      · exact ⟨"create", by simp,
          (containsSubstr_iff_specContainsToken body _ "create" (by decide)).mp hc⟩
      · exact ⟨"drop", by simp,
          (containsSubstr_iff_specContainsToken body _ "drop" (by decide)).mp hc⟩
      · exact ⟨"load", by simp,
          (containsSubstr_iff_specContainsToken body _ "load" (by decide)).mp hc⟩
    · rintro ⟨t, ht, hct⟩
      simp only [List.mem_cons, List.not_mem_nil, or_false] at ht
      rcases ht with rfl | rfl | rfl | rfl | rfl | rfl
      · exact ⟨"INSERT", by simp [updateKeywords],
          (containsSubstr_iff_specContainsToken body "INSERT" _ (by decide)).mpr hct⟩
      · exact ⟨"DELETE", by simp [updateKeywords],
          (containsSubstr_iff_specContainsToken body "DELETE" _ (by decide)).mpr hct⟩
      · exact ⟨"CLEAR", by simp [updateKeywords],
          (containsSubstr_iff_specContainsToken body "CLEAR" _ (by decide)).mpr hct⟩
      · exact ⟨"CREATE", by simp [updateKeywords],
          (containsSubstr_iff_specContainsToken body "CREATE" _ (by decide)).mpr hct⟩
      · exact ⟨"DROP", by simp [updateKeywords],
          (containsSubstr_iff_specContainsToken body "DROP" _ (by decide)).mpr hct⟩
      · exact ⟨"LOAD", by simp [updateKeywords],
          (containsSubstr_iff_specContainsToken body "LOAD" _ (by decide)).mpr hct⟩
  unfold selectContentType
  by_cases hc : (updateKeywords.any fun kw => containsSubstr (strUpper body) kw) = true
  · rw [if_pos hc]
    exact ⟨⟨fun _ => hiff.mp hc, fun _ => rfl⟩,
      ⟨fun h => absurd h (by decide), fun h => absurd (hiff.mp hc) h⟩⟩
  · rw [if_neg hc]
    have hspec : ¬ specIsUpdate body := fun hs => hc (hiff.mpr hs)
    exact ⟨⟨fun h => absurd h (by decide), fun hs => absurd hs hspec⟩,
      ⟨fun _ => hspec, fun _ => rfl⟩⟩

/-- The delete/clear scan used for the base timeout detects exactly the
case-insensitive occurrences of delete or clear. -/
theorem baseTimeout_eq_iff (body : String) :
    (baseTimeout body = 300 ↔
      (specContainsToken body "delete" ∨ specContainsToken body "clear"))
    ∧ (baseTimeout body = 120 ↔
      ¬ (specContainsToken body "delete" ∨ specContainsToken body "clear")) := by
  have hiff : ((["DELETE", "CLEAR"] : List String).any
        fun kw => containsSubstr (strUpper body) kw) = true
      ↔ (specContainsToken body "delete" ∨ specContainsToken body "clear") := by
    simp only [List.any_cons, List.any_nil, Bool.or_false, Bool.or_eq_true]
    rw [containsSubstr_iff_specContainsToken body "DELETE" "delete" (by decide),
      containsSubstr_iff_specContainsToken body "CLEAR" "clear" (by decide)]
  unfold baseTimeout
  by_cases hc : ((["DELETE", "CLEAR"] : List String).any
      fun kw => containsSubstr (strUpper body) kw) = true
  · rw [if_pos hc]
    exact ⟨⟨fun _ => hiff.mp hc, fun _ => rfl⟩,
      ⟨fun h => absurd h (by decide), fun h => absurd (hiff.mp hc) h⟩⟩
  · rw [if_neg hc]
    have hspec := fun hs => hc (hiff.mpr hs)
    exact ⟨⟨fun h => absurd h (by decide), fun hs => absurd hs hspec⟩,
      ⟨fun _ => hspec, fun _ => rfl⟩⟩

/-- C2: for every RDF-protocol request and every attempt number k in
\x7b1,2,3\x7d, the per-attempt timeout equals b × k seconds, where b = 300 if the
request body contains delete or clear case-insensitively and b = 120
otherwise (attempt k runs with retry count k - 1). -/
theorem sparql_timeout_escalation (body : String) (k : Nat)
    (hk1 : 1 ≤ k) (hk3 : k ≤ 3) :
    ((specContainsToken body "delete" ∨ specContainsToken body "clear") →
      timeoutSeconds body (k - 1) = 300 * k)
    ∧ (¬ (specContainsToken body "delete" ∨ specContainsToken body "clear") →
      timeoutSeconds body (k - 1) = 120 * k) := by
  have hks : k - 1 + 1 = k := Nat.sub_add_cancel hk1
  have _hk3 := hk3
  unfold timeoutSeconds
  rw [hks]
  constructor
  · intro h
    rw [(baseTimeout_eq_iff body).1.mpr h]
  · intro h
    rw [(baseTimeout_eq_iff body).2.mpr h]

/-- Witness for `sparql_timeout_escalation` at body "CLEAR GRAPH" and
attempt number 2. -/
theorem sparql_timeout_escalation_witness :
    1 ≤ 2 ∧ 2 ≤ 3
    ∧ (((specContainsToken "CLEAR GRAPH" "delete" ∨ specContainsToken "CLEAR GRAPH" "clear") →
        timeoutSeconds "CLEAR GRAPH" (2 - 1) = 300 * 2)
      ∧ (¬ (specContainsToken "CLEAR GRAPH" "delete" ∨ specContainsToken "CLEAR GRAPH" "clear") →
        timeoutSeconds "CLEAR GRAPH" (2 - 1) = 120 * 2)) :=
  ⟨by decide, by decide, sparql_timeout_escalation "CLEAR GRAPH" 2 (by decide) (by decide)⟩

/-! ## Parameter substitution (`execute_sparql`, lines 94-129) -/

/-- Python `str.replace` on character lists: scan left to right, replacing
non-overlapping occurrences of `pat` by `rep`. The fuel bounds the scan by
the input length (each step consumes at least one character when `pat` is
nonempty). -/
def replaceChars (fuel : Nat) (s pat rep : List Char) : List Char :=
  match fuel with
  | 0 => s
  | fuel + 1 =>
    match s with
    | [] => []
    | c :: rest =>
      if pat.isPrefixOf (c :: rest) then
        rep ++ replaceChars fuel ((c :: rest).drop pat.length) pat rep
      else
        c :: replaceChars fuel rest pat rep

/-- Python `s.replace(pat, rep)` for nonempty `pat` (all placeholders the
code replaces are nonempty strings of the form `$k`). -/
def strReplace (s pat rep : String) : String :=
  if pat.data = [] then s
  else ⟨replaceChars s.data.length s.data pat.data rep.data⟩

/-- The Python values a query parameter can hold. `pyother` carries the
`str()` rendering of an object of any other type. Floats are not modelled. -/
inductive PyValue where
  | pynone : PyValue
  | pystr (s : String) : PyValue
  | pybool (b : Bool) : PyValue
  | pyint (n : Int) : PyValue
  | pylist (items : List PyValue) : PyValue
  | pyother (rep : String) : PyValue

/-- A single-quote character, for Python `repr` of strings. -/
def squote : String := ⟨[Char.ofNat 39]⟩

mutual
/-- Python `repr` of a parameter value (string escaping inside `repr` is not
modelled; no claim exercises it). -/
def pyRepr : PyValue → String
  | .pynone => "None"
  | .pystr s => squote ++ s ++ squote
  | .pybool b => if b then "True" else "False"
  | .pyint n => toString n
  | .pylist items => "[" ++ String.intercalate ", " (pyReprItems items) ++ "]"
  | .pyother r => r

/-- `repr` of each element of a list. -/
def pyReprItems : List PyValue → List String
  | [] => []
  | v :: vs => pyRepr v :: pyReprItems vs
end

/-- Python `str()` of a parameter value. -/
def pyStr : PyValue → String
  | .pystr s => s
  | v => pyRepr v

/-- Escape embedded double quotes: `v.replace(chr(34), chr(92) ++ chr(34))`
(line 108). -/
def escapeQuotes (s : String) : String :=
  strReplace s "\"" "\\\""

/-- Rendering of one list element (lines 117-122): strings are escaped and
quoted, anything else is `str(item)`. -/
def formatListItem (item : PyValue) : String :=
  match item with
  | .pystr s => "\"" ++ escapeQuotes s ++ "\""
  | _ => pyStr item

/-- Type-dependent rendering of a parameter value (lines 102-125). `None` is
first turned into the empty string and then takes the string branch. -/
def formatValue (v : PyValue) : String :=
  match v with
  | .pynone => "\"" ++ escapeQuotes "" ++ "\""
  | .pystr s => "\"" ++ escapeQuotes s ++ "\""
  | .pybool b => strLower (pyStr (.pybool b))
  | .pyint n => pyStr (.pyint n)
  | .pylist items => "(" ++ String.intercalate ", " (items.map formatListItem) ++ ")"
  | .pyother r => "\"" ++ r ++ "\""

/-- The substitution loop (lines 100-129): for each parameter `(k, v)` in
order, replace every occurrence of `$k` by the rendering of `v`. -/
def applyParams (query : String) (params : List (String × PyValue)) : String :=
  params.foldl (fun acc p => strReplace acc ("$" ++ p.1) (formatValue p.2)) query

/-- The body and content type of the signed SPARQL request. -/
structure SparqlRequest where
  body : String
  contentType : String

/-- Request construction (lines 94-152): substitute the parameters, then
classify the substituted text and send it as the body. -/
def buildSparqlRequest (query : String) (params : List (String × PyValue)) :
    SparqlRequest :=
  let formattedQuery := applyParams query params
  { body := formattedQuery, contentType := selectContentType formattedQuery }

/-- C10: parameters are substituted into the query first, with the
type-dependent renderings of lines 102-125, and both the content-type
classification and the body on the wire are computed from the substituted
text; in particular a parameter value containing a mutation keyword flips
the classification to update. -/
theorem sparql_param_substitution (query : String) (params : List (String × PyValue)) :
    (buildSparqlRequest query params).body = applyParams query params
    ∧ (buildSparqlRequest query params).contentType
        = selectContentType (applyParams query params)
    ∧ (∀ s, formatValue (.pystr s) = "\"" ++ escapeQuotes s ++ "\"")
    ∧ formatValue .pynone = formatValue (.pystr "")
    ∧ (∀ b, formatValue (.pybool b) = strLower (pyStr (.pybool b)))
    ∧ (∀ items, formatValue (.pylist items)
        = "(" ++ String.intercalate ", " (items.map formatListItem) ++ ")")
    ∧ (buildSparqlRequest "SELECT ?s WHERE ?s ?p $v" [("v", .pystr "delete old rows")]).contentType
        = "application/sparql-update"
    ∧ (buildSparqlRequest "SELECT ?s WHERE ?s ?p $v" [("v", .pystr "nothing")]).contentType
        = "application/sparql-query" :=
  ⟨rfl, rfl, fun _ => rfl, by decide, fun _ => rfl, fun _ => rfl, by decide, by decide⟩

/-! ## Retry loop (`execute_sparql`, lines 161-264, outer handler 266-279) -/

/-- Outcome of one attempt of the `while` body: a transformed result, an
`asyncio.TimeoutError`, an `aiohttp.ClientConnectorError`, or any other
exception (tagged with whether it is an `aiohttp.ClientError`). Results and
errors carry abstract identities. -/
inductive AttemptOutcome where
  | ok (r : Nat) : AttemptOutcome
  | timeout : AttemptOutcome
  | connError (e : Nat) : AttemptOutcome
  | otherError (e : Nat) (isClientError : Bool) : AttemptOutcome
deriving DecidableEq

/-- The error classes the loop catches and retries (lines 232, 246). -/
def AttemptOutcome.retryable : AttemptOutcome → Bool
  | .timeout => true
  | .connError _ => true
  | _ => false

/-- `max_retries = 3` (line 162). -/
def maxRetries : Nat := 3

/-- How the `while` loop ends. `exitedLoop` is the fall-through to the raise
at line 282 (unreachable from entry, as the code comment notes). -/
inductive LoopResult where
  | success (r : Nat) : LoopResult
  | raisedTimeout : LoopResult
  | raisedConn (e : Nat) : LoopResult
  | raisedOther (e : Nat) (isClientError : Bool) : LoopResult
  | exitedLoop : LoopResult
deriving DecidableEq

/-- The retry loop (lines 165-264): run the attempt at the current retry
count; a timeout or connection error increments the counter and loops while
the incremented counter is below `max_retries`, else re-raises; any other
exception re-raises at once. Also returns the number of attempts made. The
fuel mirrors the `while retry_count < max_retries` guard. -/
def retryLoopAux (attempts : Nat → AttemptOutcome) (retryCount fuel : Nat) :
    LoopResult × Nat :=
  match fuel with
  | 0 => (.exitedLoop, retryCount)
  | fuel + 1 =>
    match attempts retryCount with
    | .ok r => (.success r, retryCount + 1)
    | .timeout =>
      if retryCount + 1 < maxRetries then retryLoopAux attempts (retryCount + 1) fuel
      else (.raisedTimeout, retryCount + 1)
    | .connError e =>
      if retryCount + 1 < maxRetries then retryLoopAux attempts (retryCount + 1) fuel
      else (.raisedConn e, retryCount + 1)
    | .otherError e ce => (.raisedOther e ce, retryCount + 1)

/-- Entry into the loop with `retry_count = 0`. -/
def retryLoop (attempts : Nat → AttemptOutcome) : LoopResult × Nat :=
  retryLoopAux attempts 0 maxRetries

/-- What `execute_sparql` surfaces to its caller: the outer handler
(lines 266-279) catches `aiohttp.ClientError` and re-raises it wrapped
(with the original error as cause); `asyncio.TimeoutError` and other
non-client errors propagate unwrapped. -/
inductive RaisedError where
  | timeoutError : RaisedError
  | wrappedClientError (e : Nat) : RaisedError
  | plainError (e : Nat) : RaisedError
  | unexpectedPath : RaisedError
deriving DecidableEq

/-- Result of a whole `execute_sparql` call. -/
inductive ExecOutcome where
  | result (r : Nat) : ExecOutcome
  | raised (e : RaisedError) : ExecOutcome
deriving DecidableEq

/-- `execute_sparql` as seen by the caller, with the attempt count. -/
def execSparqlOutcome (attempts : Nat → AttemptOutcome) : ExecOutcome × Nat :=
  match retryLoop attempts with
  | (.success r, n) => (.result r, n)
  | (.raisedTimeout, n) => (.raised .timeoutError, n)
  | (.raisedConn e, n) => (.raised (.wrappedClientError e), n)
  | (.raisedOther e ce, n) =>
    if ce then (.raised (.wrappedClientError e), n) else (.raised (.plainError e), n)
  | (.exitedLoop, n) => (.raised .unexpectedPath, n)

/-- A retryable failure with a further attempt available just advances the
loop to the next retry count. -/
theorem retryLoopAux_step (attempts : Nat → AttemptOutcome) (j fuel : Nat)
    (hj : (attempts j).retryable = true) (hlt : j + 1 < maxRetries) :
    retryLoopAux attempts j (fuel + 1) = retryLoopAux attempts (j + 1) fuel := by
  cases h : attempts j with
  | ok r => rw [h] at hj; exact absurd hj (by simp [AttemptOutcome.retryable])
  | timeout => simp [retryLoopAux, h, hlt]
  | connError e => simp [retryLoopAux, h, hlt]
  | otherError e ce => rw [h] at hj; exact absurd hj (by simp [AttemptOutcome.retryable])

/-- C1: a timeout or connection-establishment failure increments the attempt
counter and is retried up to 3 attempts total; any other exception is
re-raised immediately with no further attempts; when all 3 attempts fail
with retryable errors the last error is re-raised (a connection error
re-raised through the outer handler, wrapped with the original as cause). -/
theorem sparql_retry_classification (attempts : Nat → AttemptOutcome) :
    (∀ k r, k < 3 → (∀ j, j < k → (attempts j).retryable = true) →
      attempts k = .ok r → execSparqlOutcome attempts = (.result r, k + 1))
    ∧ (∀ k e ce, k < 3 → (∀ j, j < k → (attempts j).retryable = true) →
      attempts k = .otherError e ce →
      execSparqlOutcome attempts =
        (.raised (if ce then .wrappedClientError e else .plainError e), k + 1))
    ∧ ((∀ j, j < 2 → (attempts j).retryable = true) → attempts 2 = .timeout →
      execSparqlOutcome attempts = (.raised .timeoutError, 3))
    ∧ ((∀ j, j < 2 → (attempts j).retryable = true) → ∀ e, attempts 2 = .connError e →
      execSparqlOutcome attempts = (.raised (.wrappedClientError e), 3)) := by
  refine ⟨?_, ?_, ?_, ?_⟩
  · intro k r hk hall hok
    interval_cases k
    · simp [execSparqlOutcome, retryLoop, maxRetries, retryLoopAux, hok]
    · rw [execSparqlOutcome, retryLoop, show maxRetries = 2 + 1 from rfl,
        retryLoopAux_step attempts 0 2 (hall 0 (by omega)) (by decide)]
      simp [retryLoopAux, hok]
    · rw [execSparqlOutcome, retryLoop, show maxRetries = 2 + 1 from rfl,
        retryLoopAux_step attempts 0 2 (hall 0 (by omega)) (by decide),
        show (2 : Nat) = 1 + 1 from rfl,
        retryLoopAux_step attempts 1 1 (hall 1 (by omega)) (by decide)]
      simp [retryLoopAux, hok]
  · intro k e ce hk hall herr
    interval_cases k
    · cases ce <;> simp [execSparqlOutcome, retryLoop, maxRetries, retryLoopAux, herr]
    · rw [execSparqlOutcome, retryLoop, show maxRetries = 2 + 1 from rfl,
        retryLoopAux_step attempts 0 2 (hall 0 (by omega)) (by decide)]
      cases ce <;> simp [retryLoopAux, herr]
    · rw [execSparqlOutcome, retryLoop, show maxRetries = 2 + 1 from rfl,
        retryLoopAux_step attempts 0 2 (hall 0 (by omega)) (by decide),
        show (2 : Nat) = 1 + 1 from rfl,
        retryLoopAux_step attempts 1 1 (hall 1 (by omega)) (by decide)]
      cases ce <;> simp [retryLoopAux, herr]
  · intro hall h2
    rw [execSparqlOutcome, retryLoop, show maxRetries = 2 + 1 from rfl,
      retryLoopAux_step attempts 0 2 (hall 0 (by omega)) (by decide),
      show (2 : Nat) = 1 + 1 from rfl,
      retryLoopAux_step attempts 1 1 (hall 1 (by omega)) (by decide)]
    simp [retryLoopAux, h2, maxRetries]
  · intro hall e h2
    rw [execSparqlOutcome, retryLoop, show maxRetries = 2 + 1 from rfl,
      retryLoopAux_step attempts 0 2 (hall 0 (by omega)) (by decide),
      show (2 : Nat) = 1 + 1 from rfl,
      retryLoopAux_step attempts 1 1 (hall 1 (by omega)) (by decide)]
    simp [retryLoopAux, h2, maxRetries]

/-- A concrete attempt sequence: timeout, then connection error, then
success. -/
def c1Attempts : Nat → AttemptOutcome := fun k =>
  match k with
  | 0 => .timeout
  | 1 => .connError 7
  | _ => .ok 42

/-- Witness for `sparql_retry_classification`: after a timeout and a
connection error, the third attempt's result is returned. -/
theorem sparql_retry_classification_witness :
    2 < 3 ∧ (∀ j, j < 2 → (c1Attempts j).retryable = true)
    ∧ c1Attempts 2 = .ok 42
    ∧ execSparqlOutcome c1Attempts = (.result 42, 3) :=
  ⟨by decide, by intro j hj; interval_cases j <;> rfl, rfl,
    (sparql_retry_classification c1Attempts).1 2 42 (by decide)
      (by intro j hj; interval_cases j <;> rfl) rfl⟩

/-! ## Response processing (`execute_sparql`, lines 190-230) -/

/-- Exceptions that response processing can raise: the HTTP-error check of
`raise_for_status` (an `aiohttp.ClientError`), a JSON decode failure, and
the `TypeError`/`AttributeError` family raised when transforming
unexpectedly-shaped JSON. -/
inductive PyError where
  | httpStatus (code : Nat) : PyError
  | jsonDecode : PyError
  | pyTypeError : PyError
deriving DecidableEq

/-- One attempt's HTTP response: status code, Content-Type header, body
text, and the body parsed as JSON when it is valid JSON. -/
structure HttpResponse where
  status : Nat
  contentTypeHeader : Option String
  text : String
  bodyJson : Option Json

/-- Flatten one binding (lines 216-221): `row[var] = value.get("value")` for
each variable; a non-object binding or term raises. -/
def transformBinding : Json → Except PyError Json
  | .obj flds =>
    match mapMExcept (fun p =>
        match p.2 with
        | .obj tf => Except.ok (p.1, (dictGet tf "value").getD Json.null)
        | _ => Except.error PyError.pyTypeError) flds with
    | .ok rows => .ok (.obj rows)
    | .error e => .error e
  | _ => .error .pyTypeError

/-- Iterate `result["results"]["bindings"]` (line 216): a JSON array is
transformed element-wise; iterating an empty string or empty object yields
no rows; any other shape raises while iterating or transforming. -/
def iterBindings : Json → Except PyError (List Json)
  | .arr bs => mapMExcept transformBinding bs
  | .str s => if s = "" then .ok [] else .error .pyTypeError
  | .obj [] => .ok []
  | .obj (_ :: _) => .error .pyTypeError
  | _ => .error .pyTypeError

/-- The ASK check (lines 226-230): `if "boolean" in result`, emit the single
row; otherwise return the whole response unchanged. -/
def boolCheck (jf : List (String × Json)) (j : Json) : Except PyError Json :=
  match dictGet jf "boolean" with
  | some bv => .ok (.obj [("results", .arr [.obj [("boolean", bv)]])])
  | none => .ok j

/-- The JSON transformation (lines 212-230) for an object response `jf`.
Python membership (`in`) on a string is substring containment and on a list
is element equality; on those shapes a successful membership test is
followed by a subscript that raises, and membership on a number/bool/None
raises `TypeError` directly. -/
def processJsonObj (jf : List (String × Json)) : Except PyError Json :=
  match dictGet jf "results" with
  | some res =>
    match res with
    | .obj rf =>
      match dictGet rf "bindings" with
      | some bnd =>
        match iterBindings bnd with
        | .ok rows => .ok (.obj [("results", .arr rows)])
        | .error e => .error e
      | none => boolCheck jf (.obj jf)
    | .str s =>
      if containsSubstr s "bindings" then .error .pyTypeError else boolCheck jf (.obj jf)
    | .arr xs =>
      if xs.any (fun x => match x with | .str s => s == "bindings" | _ => false) then
        .error .pyTypeError
      else boolCheck jf (.obj jf)
    | _ => .error .pyTypeError
  | none => boolCheck jf (.obj jf)

/-- The JSON transformation (lines 212-230), dispatching on the shape of the
parsed response. -/
def processJson (j : Json) : Except PyError Json :=
  match j with
  | .obj jf => processJsonObj jf
  | .str s =>
    if containsSubstr s "results" then .error .pyTypeError
    else if containsSubstr s "boolean" then .error .pyTypeError
    else .ok j
  | .arr xs =>
    if xs.any (fun x => match x with | .str s => s == "results" | _ => false) then
      .error .pyTypeError
    else if xs.any (fun x => match x with | .str s => s == "boolean" | _ => false) then
      .error .pyTypeError
    else .ok j
  | _ => .error .pyTypeError

/-- The non-JSON test on the Content-Type header (lines 193-195):
`not content_type or "json" not in content_type.lower()`. -/
def isNonJsonCT (h : Option String) : Bool :=
  let ct := h.getD ""
  ct == "" || !(containsSubstr (strLower ct) "json")

/-- Processing of one attempt's response (lines 190-230): `raise_for_status`
first (status 400 and above raises), then the non-JSON branches, then JSON
parsing and transformation. -/
def processResponse (resp : HttpResponse) : Except PyError Json :=
  if 400 ≤ resp.status then .error (.httpStatus resp.status)
  else if isNonJsonCT resp.contentTypeHeader then
    if resp.status = 200 then
      .ok (.obj [("status", .str "success"), ("code", .num 200)])
    else
      .ok (.obj [("status", .str "error"), ("code", .num (resp.status : Int)),
        ("message", .str resp.text)])
  else
    match resp.bodyJson with
    | none => .error .jsonDecode
    | some j => processJson j

/-- Counterexample to C4 as stated: a non-JSON response with status 500
makes `execute_sparql` raise (the HTTP-error check fires before the
non-JSON branch), rather than return the single-row error record. -/
theorem sparql_nonjson_500_raises :
    processResponse ⟨500, some "text/plain", "Internal Server Error", none⟩
      = .error (.httpStatus 500)
    ∧ processResponse ⟨500, some "text/plain", "Internal Server Error", none⟩
      ≠ .ok (.obj [("status", .str "error"), ("code", .num 500),
          ("message", .str "Internal Server Error")]) :=
  ⟨rfl, fun h => Except.noConfusion h⟩

/-- C4 (amended): for a response whose content type is not JSON and whose
status passes the HTTP-error check (status below 400), status 200 yields the
single status record and any other such status yields the single-row error
record with the response text and status code. -/
theorem sparql_nonjson_transform (resp : HttpResponse)
    (hct : isNonJsonCT resp.contentTypeHeader = true)
    (hok : resp.status < 400) :
    (resp.status = 200 →
      processResponse resp = .ok (.obj [("status", .str "success"), ("code", .num 200)]))
    ∧ (resp.status ≠ 200 →
      processResponse resp = .ok (.obj [("status", .str "error"),
        ("code", .num (resp.status : Int)), ("message", .str resp.text)])) := by
  unfold processResponse
  rw [if_neg (by omega), if_pos hct]
  constructor
  · intro h; rw [if_pos h]
  · intro h; rw [if_neg h]

/-- Witness for `sparql_nonjson_transform` at a 204 text/plain response. -/
theorem sparql_nonjson_transform_witness :
    isNonJsonCT (some "text/plain") = true ∧ (204 : Nat) < 400
    ∧ (((204 : Nat) = 200 →
        processResponse ⟨204, some "text/plain", "", none⟩
          = .ok (.obj [("status", .str "success"), ("code", .num 200)]))
      ∧ ((204 : Nat) ≠ 200 →
        processResponse ⟨204, some "text/plain", "", none⟩
          = .ok (.obj [("status", .str "error"), ("code", .num ((204 : Nat) : Int)),
              ("message", .str "")]))) :=
  ⟨by decide, by decide,
    sparql_nonjson_transform ⟨204, some "text/plain", "", none⟩ (by decide) (by decide)⟩

/-- Whether a JSON value is an object. -/
def isObjB : Json → Bool
  | .obj _ => true
  | _ => false

/-- Spec-side extraction of a bound term's raw value: the term's `value`
field (`None` when absent, matching `dict.get`). -/
def extractValue : Json → Json
  | .obj tf => (dictGet tf "value").getD .null
  | _ => .null

/-- Spec-side flat record for one binding: exactly the binding's variables,
in order, each mapped to its term's raw value. -/
def specRow (b : List (String × Json)) : Json :=
  .obj (b.map (fun p => (p.1, extractValue p.2)))

/-- A well-formed SPARQL JSON response carrying the given bindings. -/
def mkBindingsResponse (bs : List (List (String × Json))) : Json :=
  .obj [("results", .obj [("bindings", .arr (bs.map Json.obj))])]

/-- A loop whose body succeeds everywhere collects all the results. -/
theorem mapMExcept_ok_of_all (f : α → Except ε β) (g : α → β) (l : List α)
    (h : ∀ a ∈ l, f a = .ok (g a)) :
    mapMExcept f l = .ok (l.map g) := by
  induction l with
  | nil => rfl
  | cons a as ih =>
    rw [List.map_cons, mapMExcept, h a (by simp),
      ih (fun x hx => h x (by simp [hx]))]

/-- Flattening an object binding whose terms are all objects succeeds and
produces its spec-side row. -/
theorem transformBinding_obj (b : List (String × Json))
    (hb : ∀ p ∈ b, isObjB p.2 = true) :
    transformBinding (.obj b) = .ok (specRow b) := by
  have hall : ∀ p ∈ b, (match p.2 with
      | Json.obj tf => Except.ok (ε := PyError) (p.1, (dictGet tf "value").getD Json.null)
      | _ => Except.error PyError.pyTypeError) = .ok (p.1, extractValue p.2) := by
    rintro ⟨k, v⟩ hp
    have hv := hb _ hp
    cases v with
    | obj tf => rfl
    | null => simp [isObjB] at hv
    | bool _ => simp [isObjB] at hv
    | num _ => simp [isObjB] at hv
    | str _ => simp [isObjB] at hv
    | arr _ => simp [isObjB] at hv
  calc transformBinding (.obj b)
      = (match mapMExcept (fun p =>
            match p.2 with
            | Json.obj tf => Except.ok (p.1, (dictGet tf "value").getD Json.null)
            | _ => Except.error PyError.pyTypeError) b with
          | .ok rows => .ok (.obj rows)
          | .error e => .error e : Except PyError Json) := rfl
    _ = .ok (specRow b) := by
        rw [mapMExcept_ok_of_all _ (fun p => (p.1, extractValue p.2)) b hall]
        rfl

/-- Transforming a list of object bindings whose terms are objects yields
exactly the list of spec-side rows. -/
theorem mapMExcept_bindings (bs : List (List (String × Json)))
    (hterm : ∀ b ∈ bs, ∀ p ∈ b, isObjB p.2 = true) :
    mapMExcept transformBinding (bs.map Json.obj) = .ok (bs.map specRow) := by
  induction bs with
  | nil => rfl
  | cons b rest ih =>
    rw [List.map_cons, List.map_cons, mapMExcept,
      transformBinding_obj b (hterm b (by simp)),
      ih (fun x hx => hterm x (by simp [hx]))]

/-- C5: a well-formed bindings response with N bindings transforms to
exactly N records in order, each mapping exactly the variables bound in that
binding to the term's raw `value` field. -/
theorem sparql_bindings_transform (bs : List (List (String × Json)))
    (hterm : ∀ b ∈ bs, ∀ p ∈ b, isObjB p.2 = true) :
    processJson (mkBindingsResponse bs)
      = .ok (.obj [("results", .arr (bs.map specRow))])
    ∧ (bs.map specRow).length = bs.length
    ∧ ∀ b ∈ bs, (b.map fun p => (p.1, extractValue p.2)).map Prod.fst = b.map Prod.fst := by
  refine ⟨?_, List.length_map _ _, fun b _ => by simp⟩
  calc processJson (mkBindingsResponse bs)
      = (match mapMExcept transformBinding (bs.map Json.obj) with
          | .ok rows => .ok (.obj [("results", .arr rows)])
          | .error e => .error e : Except PyError Json) := rfl
    _ = .ok (.obj [("results", .arr (bs.map specRow))]) := by
        rw [mapMExcept_bindings bs hterm]

/-- Witness for `sparql_bindings_transform` on a two-binding response. -/
theorem sparql_bindings_transform_witness :
    (∀ b ∈ ([[("s", Json.obj [("type", Json.str "uri"), ("value", Json.str "urn:a")])],
        [("s", Json.obj [("value", Json.str "urn:b")]),
         ("n", Json.obj [("value", Json.str "5")])]] :
        List (List (String × Json))), ∀ p ∈ b, isObjB p.2 = true)
    ∧ processJson (mkBindingsResponse
        [[("s", Json.obj [("type", Json.str "uri"), ("value", Json.str "urn:a")])],
         [("s", Json.obj [("value", Json.str "urn:b")]),
          ("n", Json.obj [("value", Json.str "5")])]])
      = .ok (.obj [("results", .arr
          ([[("s", Json.obj [("type", Json.str "uri"), ("value", Json.str "urn:a")])],
            [("s", Json.obj [("value", Json.str "urn:b")]),
             ("n", Json.obj [("value", Json.str "5")])]].map specRow))]) :=
  ⟨by intro b hb p hp; fin_cases hb <;> fin_cases hp <;> rfl,
    (sparql_bindings_transform _
      (by intro b hb p hp; fin_cases hb <;> fin_cases hp <;> rfl)).1⟩

/-- C6: a JSON response with a `boolean` field and the ASK shape (no
`results`/`bindings` collection) transforms to exactly one row containing
that boolean value — never zero rows and never more than one. -/
theorem sparql_ask_single_row (jf : List (String × Json)) (bv : Json)
    (hb : dictGet jf "boolean" = some bv)
    (hr : dictGet jf "results" = none
      ∨ ∃ rf, dictGet jf "results" = some (.obj rf) ∧ dictGet rf "bindings" = none) :
    processJson (.obj jf) = .ok (.obj [("results", .arr [.obj [("boolean", bv)]])])
    ∧ ∀ rows, processJson (.obj jf) = .ok (.obj [("results", .arr rows)]) →
        rows.length = 1 := by
  have hstep : processJson (.obj jf) = processJsonObj jf := rfl
  have hone : processJson (.obj jf)
      = .ok (.obj [("results", .arr [.obj [("boolean", bv)]])]) := by
    rw [hstep]
    rcases hr with h | ⟨rf, hrf, hbnd⟩
    · simp only [processJsonObj, h, boolCheck, hb]
    · simp only [processJsonObj, hrf, hbnd, boolCheck, hb]
  refine ⟨hone, fun rows h => ?_⟩
  rw [hone] at h
  have := (Except.ok.injEq _ _).mp h.symm
  simp only [Json.obj.injEq, List.cons.injEq, Prod.mk.injEq, Json.arr.injEq,
    and_true, true_and] at this
  rw [this]
  rfl

/-- Witness for `sparql_ask_single_row` on a concrete ASK response. -/
theorem sparql_ask_single_row_witness :
    dictGet [("head", Json.obj []), ("boolean", Json.bool true)] "boolean"
      = some (Json.bool true)
    ∧ (dictGet [("head", Json.obj []), ("boolean", Json.bool true)] "results" = none
      ∨ ∃ rf, dictGet [("head", Json.obj []), ("boolean", Json.bool true)] "results"
          = some (.obj rf) ∧ dictGet rf "bindings" = none)
    ∧ (processJson (.obj [("head", Json.obj []), ("boolean", Json.bool true)])
        = .ok (.obj [("results", .arr [.obj [("boolean", Json.bool true)]])])
      ∧ ∀ rows, processJson (.obj [("head", Json.obj []), ("boolean", Json.bool true)])
          = .ok (.obj [("results", .arr rows)]) → rows.length = 1) :=
  ⟨rfl, Or.inl rfl,
    sparql_ask_single_row [("head", Json.obj []), ("boolean", Json.bool true)]
      (Json.bool true) rfl (Or.inl rfl)⟩

/-! ## GraphSON transformation (`_transform_graphson_item`, lines 593-650) -/

/-- Python `dict` assignment `d[k] = v`: replace in place when the key
exists, append otherwise. -/
def dictInsert (fs : List (String × Json)) (kv : String × Json) : List (String × Json) :=
  if fs.any (fun p => p.1 == kv.1) then
    fs.map (fun p => if p.1 == kv.1 then (p.1, kv.2) else p)
  else fs ++ [kv]

/-- Python `o == "lit"`: true exactly for an equal string. -/
def isStrEq (o : Option Json) (s : String) : Bool :=
  match o with
  | some (.str t) => t == s
  | _ => false

/-- Per-property extraction (lines 615-623): a nonempty list's first value
is unwrapped through `["@value"]["value"]` when it is a dict with an
`@value` key (raising when the inner access fails), kept whole when it is
any other first value; an empty list or non-list is kept whole. -/
def extractPropValue : Json → Except PyError Json
  | .arr (v :: _) =>
    match v with
    | .obj vf =>
      match dictGet vf "@value" with
      | some (.obj wf) =>
        match dictGet wf "value" with
        | some x => .ok x
        | none => .error .pyTypeError
      | some _ => .error .pyTypeError
      | none => .ok v
    | _ => .ok v
  | pv => .ok pv

/-- The vertex branch (lines 603-625): id, label, type, then one entry per
property. -/
def transformVertex (vd : Json) : Except PyError Json :=
  match vd with
  | .obj vf =>
    let base := [("id", (dictGet vf "id").getD .null),
                 ("label", (dictGet vf "label").getD .null),
                 ("type", Json.str "vertex")]
    match dictGet vf "properties" with
    | some (.obj pf) =>
      match mapMExcept (fun p => (extractPropValue p.2).map (fun e => (p.1, e))) pf with
      | .ok entries => .ok (.obj (entries.foldl dictInsert base))
      | .error e => .error e
    | some _ => .error .pyTypeError
    | none => .ok (.obj base)
  | _ => .error .pyTypeError

/-- The edge branch (lines 627-643): id, label, type, inV, outV, then the
properties copied unchanged. -/
def transformEdge (ed : Json) : Except PyError Json :=
  match ed with
  | .obj ef =>
    let base := [("id", (dictGet ef "id").getD .null),
                 ("label", (dictGet ef "label").getD .null),
                 ("type", Json.str "edge"),
                 ("inV", (dictGet ef "inV").getD .null),
                 ("outV", (dictGet ef "outV").getD .null)]
    match dictGet ef "properties" with
    | some (.obj pf) => .ok (.obj (pf.foldl dictInsert base))
    | some _ => .error .pyTypeError
    | none => .ok (.obj base)
  | _ => .error .pyTypeError

/-- The `try` body of `_transform_graphson_item`. -/
def transformGraphsonItemCore (item : Json) : Except PyError Json :=
  match item with
  | .obj fs =>
    if isStrEq (dictGet fs "@type") "g:Vertex" then
      match dictGet fs "@value" with
      | some vd => transformVertex vd
      | none => .error .pyTypeError
    else if isStrEq (dictGet fs "@type") "g:Edge" then
      match dictGet fs "@value" with
      | some ed => transformEdge ed
      | none => .error .pyTypeError
    else .ok (.obj [("value", (dictGet fs "@value").getD item)])
  | _ => .error .pyTypeError

/-- `_transform_graphson_item`: any exception degrades to wrapping the raw
item as `{"value": item}` (lines 648-650). -/
def transformGraphsonItem (item : Json) : Json :=
  match transformGraphsonItemCore item with
  | .ok r => r
  | .error _ => .obj [("value", item)]

/-- A GraphSON vertex with the given id, label and properties. -/
def mkVertex (vid vlabel : Json) (props : List (String × Json)) : Json :=
  .obj [("@type", .str "g:Vertex"),
        ("@value", .obj [("id", vid), ("label", vlabel), ("properties", .obj props)])]

/-- A property value that extracted successfully. -/
def extractOk (pv : Json) : Json :=
  match extractPropValue pv with
  | .ok e => e
  | .error _ => .null

/-- Inserting entries with fresh, pairwise distinct keys appends them in
order. -/
theorem foldl_dictInsert_append (entries base : List (String × Json))
    (hfresh : ∀ p ∈ entries, ∀ q ∈ base, p.1 ≠ q.1)
    (hnodup : (entries.map Prod.fst).Nodup) :
    entries.foldl dictInsert base = base ++ entries := by
  induction entries generalizing base with
  | nil => simp
  | cons e es ih =>
    have hins : dictInsert base e = base ++ [e] := by
      unfold dictInsert
      rw [if_neg]
      simp only [List.any_eq_true, not_exists, not_and, Bool.not_eq_true]
      intro q hq
      rw [beq_eq_false_iff_ne]
      exact fun hqe => hfresh e (by simp) q hq hqe.symm
    have hnd : e.1 ∉ es.map Prod.fst ∧ (es.map Prod.fst).Nodup := by
      rw [List.map_cons, List.nodup_cons] at hnodup
      exact hnodup
    rw [List.foldl_cons, hins, ih (base ++ [e]) ?hfresh hnd.2]
    · simp
    case hfresh =>
      intro p hp q hq
      rcases List.mem_append.mp hq with hq | hq
      · exact hfresh p (by simp [hp]) q hq
      · rw [List.mem_singleton.mp hq]
        exact fun hpe => hnd.1 (hpe ▸ List.mem_map_of_mem Prod.fst hp)

/-- Counterexample to C7 as stated: the claimed example property
`name ↦ [θ]` with `θ = obj [value ↦ Alice]` is kept as the whole first
value `θ`, not unwrapped to the string; only an `@value`-tagged first value
is unwrapped. -/
theorem graphson_vertex_plain_value_kept :
    transformGraphsonItem (mkVertex (.num 1) (.str "person")
        [("name", .arr [.obj [("value", .str "Alice")]])])
      = .obj [("id", .num 1), ("label", .str "person"), ("type", .str "vertex"),
          ("name", .obj [("value", .str "Alice")])]
    ∧ (transformGraphsonItem (mkVertex (.num 1) (.str "person")
        [("name", .arr [.obj [("value", .str "Alice")]])])).getField "name"
      ≠ some (.str "Alice") :=
  ⟨rfl, fun h => Json.noConfusion (Option.some.inj h)⟩

/-- C7 (amended): a vertex-tagged element produces a record with id, label,
type "vertex", and one entry per property in order; a property whose first
bound value is `@value`-tagged contributes the inner raw value, and a plain
first value is kept as-is (so `name ↦ [obj [@value ↦ obj [value ↦ Alice]]]`
yields `name ↦ Alice`). -/
theorem graphson_vertex_flatten (vid vlabel : Json) (props : List (String × Json))
    (hfresh : ∀ p ∈ props, p.1 ∉ (["id", "label", "type"] : List String))
    (hnodup : (props.map Prod.fst).Nodup)
    (hex : ∀ p ∈ props, ∃ e, extractPropValue p.2 = .ok e) :
    transformGraphsonItem (mkVertex vid vlabel props)
      = .obj ([("id", vid), ("label", vlabel), ("type", Json.str "vertex")]
          ++ props.map (fun p => (p.1, extractOk p.2))) := by
  have hmap : mapMExcept (fun p => (extractPropValue p.2).map (fun e => (p.1, e))) props
      = .ok (props.map fun p => (p.1, extractOk p.2)) := by
    apply mapMExcept_ok_of_all
    intro p hp
    obtain ⟨e, he⟩ := hex p hp
    simp [he, extractOk, Except.map]
  have hfold : (props.map fun p => (p.1, extractOk p.2)).foldl dictInsert
        [("id", vid), ("label", vlabel), ("type", Json.str "vertex")]
      = [("id", vid), ("label", vlabel), ("type", Json.str "vertex")]
          ++ props.map (fun p => (p.1, extractOk p.2)) := by
    apply foldl_dictInsert_append
    · rintro p hp q hq
      obtain ⟨p₀, hp₀, rfl⟩ := List.mem_map.mp hp
      have hni := hfresh p₀ hp₀
      simp only [List.mem_cons, List.not_mem_nil, or_false] at hq hni
      push_neg at hni
      obtain ⟨h1, h2, h3⟩ := hni
      rcases hq with rfl | rfl | rfl
      · simpa using h1
      · simpa using h2
      · simpa using h3
    · simpa using hnodup
  calc transformGraphsonItem (mkVertex vid vlabel props)
      = (match (match mapMExcept (fun p => (extractPropValue p.2).map (fun e => (p.1, e))) props with
            | .ok entries => Except.ok (ε := PyError) (Json.obj (entries.foldl dictInsert
                [("id", vid), ("label", vlabel), ("type", Json.str "vertex")]))
            | .error e => .error e) with
          | .ok r => r
          | .error _ => .obj [("value", mkVertex vid vlabel props)]) := rfl
    _ = _ := by rw [hmap]; exact congrArg Json.obj hfold

/-- Witness for `graphson_vertex_flatten` on a vertex with one
`@value`-tagged property, which flattens to `name ↦ Alice`. -/
theorem graphson_vertex_flatten_witness :
    (∀ p ∈ ([("name", Json.arr [Json.obj [("@value",
          Json.obj [("id", Json.num 3), ("value", Json.str "Alice")])]])] :
        List (String × Json)), p.1 ∉ (["id", "label", "type"] : List String))
    ∧ (([("name", Json.arr [Json.obj [("@value",
          Json.obj [("id", Json.num 3), ("value", Json.str "Alice")])]])] :
        List (String × Json)).map Prod.fst).Nodup
    ∧ transformGraphsonItem (mkVertex (Json.num 1) (Json.str "person")
        [("name", Json.arr [Json.obj [("@value",
          Json.obj [("id", Json.num 3), ("value", Json.str "Alice")])]])])
      = .obj [("id", Json.num 1), ("label", Json.str "person"),
          ("type", Json.str "vertex"), ("name", Json.str "Alice")] :=
  ⟨by decide, by decide,
    graphson_vertex_flatten (Json.num 1) (Json.str "person")
      [("name", Json.arr [Json.obj [("@value",
        Json.obj [("id", Json.num 3), ("value", Json.str "Alice")])]])]
      (by decide) (by decide)
      (by rintro p hp
          rw [List.mem_singleton] at hp
          subst hp
          exact ⟨Json.str "Alice", rfl⟩)⟩

/-! ## Database reset (`perform_database_reset`, lines 713-778) -/

/-- What can go wrong inside the reset call's `try` block, or in the HTTP
call itself. -/
inductive ResetCause where
  | network (e : Nat) : ResetCause
  | http (status : Nat) : ResetCause
  | jsonDecode : ResetCause
  | attrError : ResetCause
deriving DecidableEq

/-- Every failure is re-raised wrapped (line 778: `raise Exception(...) from e`),
carrying the original cause. -/
inductive ResetError where
  | wrapped (cause : ResetCause) : ResetError
deriving DecidableEq

/-- The HTTP exchange of the reset call: either the call itself failed, or a
response arrived with a status and a body (parsed as JSON when valid). -/
inductive HttpCallResult where
  | failure (e : Nat) : HttpCallResult
  | response (status : Nat) (body : Option Json) : HttpCallResult

/-- `perform_database_reset` (lines 760-778): `raise_for_status`, parse the
JSON body, then return whether `result.get("status") == "200 OK"`; every
exception is wrapped and re-raised. -/
def perform_database_reset : HttpCallResult → Except ResetError Bool
  | .failure e => .error (.wrapped (.network e))
  | .response status body =>
    if 400 ≤ status then .error (.wrapped (.http status))
    else
      match body with
      | none => .error (.wrapped .jsonDecode)
      | some j =>
        match j with
        | .obj jf => if isStrEq (dictGet jf "status") "200 OK" then .ok true else .ok false
        | _ => .error (.wrapped .attrError)

/-- Python `o == "lit"` is true exactly on the equal string value. -/
theorem isStrEq_iff (o : Option Json) (s : String) :
    isStrEq o s = true ↔ o = some (.str s) := by
  cases o with
  | none => simp [isStrEq]
  | some j => cases j <;> simp [isStrEq]

/-- C8: a perform-reset call that receives a JSON response (one that passes
the HTTP-error check) returns true iff the response's status field equals
"200 OK"; a different status value returns false without raising; a failure
of the HTTP call itself raises. -/
theorem reset_status_check (status : Nat) (jf : List (String × Json))
    (hok : status < 400) :
    (perform_database_reset (.response status (some (.obj jf))) = .ok true
      ↔ dictGet jf "status" = some (.str "200 OK"))
    ∧ (dictGet jf "status" ≠ some (.str "200 OK") →
      perform_database_reset (.response status (some (.obj jf))) = .ok false)
    ∧ (∀ e, perform_database_reset (.failure e) = .error (.wrapped (.network e))) := by
  have hred : perform_database_reset (.response status (some (.obj jf)))
      = if 400 ≤ status then .error (.wrapped (.http status))
        else if isStrEq (dictGet jf "status") "200 OK" then .ok true else .ok false := rfl
  rw [hred, if_neg (by omega)]
  refine ⟨?_, ?_, fun e => rfl⟩
  · by_cases hs : isStrEq (dictGet jf "status") "200 OK" = true
    · rw [if_pos hs]
      simp [(isStrEq_iff _ _).mp hs]
    · rw [if_neg hs]
      constructor
      · intro h
        exact absurd h (by simp)
      · intro h
        exact absurd ((isStrEq_iff _ _).mpr h) hs
  · intro hne
    rw [if_neg (fun hs => hne ((isStrEq_iff _ _).mp hs))]

/-- Witness for `reset_status_check` at a 200 response whose status field is
"200 OK". -/
theorem reset_status_check_witness :
    (200 : Nat) < 400
    ∧ ((perform_database_reset (.response 200 (some (.obj [("status", Json.str "200 OK")])))
          = .ok true
        ↔ dictGet [("status", Json.str "200 OK")] "status" = some (.str "200 OK"))
      ∧ (dictGet [("status", Json.str "200 OK")] "status" ≠ some (.str "200 OK") →
        perform_database_reset (.response 200 (some (.obj [("status", Json.str "200 OK")])))
          = .ok false)
      ∧ (∀ e, perform_database_reset (.failure e) = .error (.wrapped (.network e)))) :=
  ⟨by decide, reset_status_check 200 [("status", Json.str "200 OK")] (by decide)⟩

/-! ## Session ownership (`__init__` lines 34-39, `close` lines 63-71) -/

/-- The underlying aiohttp session object, tracked by its closed flag. -/
structure Session where
  closed : Bool
deriving DecidableEq

/-- The connection's session-related state: the referenced session (if any)
and whether this component owns it (`_owns_session`). -/
structure ConnectionManager where
  clientSession : Option Session
  ownsSession : Bool
deriving DecidableEq

/-- `close` (lines 63-71): when the session is owned, referenced and open,
close the underlying session and drop the reference; otherwise do nothing.
Returns the new connection state and the final state of whatever session
object was referenced before the call. -/
def ConnectionManager.close (c : ConnectionManager) : ConnectionManager × Option Session :=
  match c.clientSession with
  | none => (c, none)
  | some s =>
    if c.ownsSession && !s.closed then
      ({ c with clientSession := none }, some { s with closed := true })
    else (c, some s)

/-- C9: `close()` on a borrowed session leaves everything unchanged (a
borrowed session is never closed), `close()` on a never-opened session is a
no-op, and a second `close()` after any `close()` changes nothing. -/
theorem close_session_ownership (c : ConnectionManager) :
    (c.ownsSession = false → ConnectionManager.close c = (c, c.clientSession))
    ∧ (c.clientSession = none → ConnectionManager.close c = (c, none))
    ∧ ConnectionManager.close (ConnectionManager.close c).1
        = ((ConnectionManager.close c).1, ((ConnectionManager.close c).1).clientSession)
    ∧ (∀ s, c.ownsSession = false → c.clientSession = some s →
        (ConnectionManager.close c).2 = some s) := by
  obtain ⟨cs, owns⟩ := c
  match cs, owns with
  | none, false => simp [ConnectionManager.close]
  | none, true => simp [ConnectionManager.close]
  | some ⟨false⟩, false => simp [ConnectionManager.close]
  | some ⟨true⟩, false => simp [ConnectionManager.close]
  | some ⟨false⟩, true => simp [ConnectionManager.close]
  | some ⟨true⟩, true => simp [ConnectionManager.close]

/-- Witness for `close_session_ownership`: closing a borrowed open session
leaves the connection and the session untouched. -/
theorem close_session_ownership_witness :
    (⟨some ⟨false⟩, false⟩ : ConnectionManager).ownsSession = false
    ∧ ConnectionManager.close ⟨some ⟨false⟩, false⟩
        = (⟨some ⟨false⟩, false⟩, (⟨some ⟨false⟩, false⟩ : ConnectionManager).clientSession) :=
  ⟨rfl, (close_session_ownership ⟨some ⟨false⟩, false⟩).1 rfl⟩

/-- Witness for `sparql_content_type_selection`: a body containing "clear"
is classified as an update payload. -/
theorem sparql_content_type_selection_witness :
    selectContentType "clear all data" = "application/sparql-update"
    ∧ specIsUpdate "clear all data" :=
  ⟨by decide, (sparql_content_type_selection "clear all data").1.mp (by decide)⟩

/-- Witness for `sparql_param_substitution`: the substituted parameter value
"delete old rows" flips the classification to update. -/
theorem sparql_param_substitution_witness :
    (buildSparqlRequest "SELECT ?s WHERE ?s ?p $v"
        [("v", .pystr "delete old rows")]).contentType
      = "application/sparql-update" :=
  (sparql_param_substitution "SELECT ?s WHERE ?s ?p $v"
    [("v", .pystr "delete old rows")]).2.2.2.2.2.2.1
